import Mathlib

/-!
Verification development for the AFEM repository: a shallow embedding of the
Boolean-operation facade (`afem/topology/bop.py`) and the array-marshalling
utilities (`afem/utils/tcol.py`), with theorems settling the documented
behavioral claims.

The wrapped OpenCASCADE / SALOME kernel objects (engines, shapes, kernel
array types) are third-party code; they are modelled here as explicit record
states whose methods follow the kernel interface as the repository uses and
documents it (the class doctests in `bop.py` assert the observable behavior
the kernel model must reproduce).  A few helpers of the repository live in
modules outside the given sources (`afem/topology/check.py`,
`afem/utils/misc.py`, `afem/occ/utils.py`); those are modelled from the
specification and are marked as such in their doc comments.
-/

namespace AFEM

/-- Opaque kernel geometric entity (a `TopoDS_Shape`), identified by an id. -/
structure Shape where
  id : Nat
deriving DecidableEq, Repr

/-- A host-language value passed as an operand to a facade constructor: the
default `None`, a valid kernel shape, or some other object that is not a
shape. -/
inductive Operand where
  | null : Operand
  | shape (s : Shape) : Operand
  | notAShape (tag : Nat) : Operand
deriving DecidableEq, Repr

/-- Modelled from the spec: `CheckShape.is_shape` (`afem/topology/check.py`,
not among the given sources) tests whether its input is a valid geometric
shape; `None` and non-shape objects are not shapes. -/
def CheckShape.is_shape : Operand → Bool
  | Operand.shape _ => true
  | _ => false

/-- The valid-shape payload of an operand, when it has one. -/
def Operand.toShape : Operand → Option Shape
  | Operand.shape s => some s
  | _ => Option.none

/-- The five kernel operation engines wrapped by the facade variants. -/
inductive BopKind where
  | fuse
  | cut
  | common
  | intersect
  | splitter
deriving DecidableEq, Repr

/-- State of one kernel Boolean/splitter operation engine: its kind, its
argument and tool sets, the configuration the facade forwards (parallel flag,
fuzzy tolerance), whether the operation has executed, the splitter engine
error-status code, and the kernel-maintained edge-refinement data. -/
structure Engine where
  kind : BopKind
  arguments : List Shape
  tools : List Shape
  runParallel : Bool
  fuzzyValue : Option ℚ
  performed : Bool
  errorStatus : Nat
  refined : Bool
  fuseEdgesFlag : Bool
  sectionEdgeList : List Shape
deriving DecidableEq, Repr

/-- Modelled from the kernel interface: an engine constructed with no
operands starts with empty argument and tool sets and has not executed; the
splitter engine starts with a nonzero ("nothing done") error-status code. -/
def Engine.mk0 (kind : BopKind) : Engine :=
  { kind := kind
    arguments := []
    tools := []
    runParallel := false
    fuzzyValue := Option.none
    performed := false
    errorStatus := 2
    refined := false
    fuseEdgesFlag := false
    sectionEdgeList := [] }

/-- Modelled from the kernel documentation and the repository doctests
(`bop = FuseShapes(e1, e2)` is immediately followed by `assert bop.is_done`):
the two-argument constructor of each standard `BRepAlgoAPI` engine records
shape1 as the argument and shape2 as the tool and executes the operation at
once.  The splitter engine `GEOMAlgo_Splitter` accepts no two-argument
constructor, so that call raises. -/
def Engine.mk2 (kind : BopKind) (s1 s2 : Shape) : Except String Engine :=
  match kind with
  | BopKind.splitter => Except.error "TypeError: GEOMAlgo_Splitter takes no operand arguments"
  | k =>
      Except.ok
        { kind := k
          arguments := [s1]
          tools := [s2]
          runParallel := false
          fuzzyValue := Option.none
          performed := true
          errorStatus := 0
          refined := false
          fuseEdgesFlag := false
          sectionEdgeList := [] }

/-- Kernel `SetRunParallel`. -/
def Engine.SetRunParallel (e : Engine) (b : Bool) : Engine :=
  { e with runParallel := b }

/-- Kernel `SetFuzzyValue`. -/
def Engine.SetFuzzyValue (e : Engine) (v : ℚ) : Engine :=
  { e with fuzzyValue := some v }

/-- Kernel `AddArgument`: appends one shape to the argument set. -/
def Engine.AddArgument (e : Engine) (s : Shape) : Engine :=
  { e with arguments := e.arguments ++ [s] }

/-- Kernel `AddTool`: appends one shape to the tool set. -/
def Engine.AddTool (e : Engine) (s : Shape) : Engine :=
  { e with tools := e.tools ++ [s] }

/-- Modelled from the kernel interface the repository uses: the standard
engines expose `SetArguments`, while the splitter engine does not (the facade
only ever calls `AddArgument`/`AddTool`/`Perform`/`ErrorStatus` on it), so
invoking it on the splitter raises an attribute error. -/
def Engine.SetArguments (e : Engine) (shapes : List Shape) : Except String Engine :=
  if e.kind = BopKind.splitter then
    Except.error "AttributeError: GEOMAlgo_Splitter has no SetArguments"
  else
    Except.ok { e with arguments := shapes }

/-- Modelled from the kernel interface the repository uses: `SetTools` exists
on the standard engines only, like `Engine.SetArguments`. -/
def Engine.SetTools (e : Engine) (shapes : List Shape) : Except String Engine :=
  if e.kind = BopKind.splitter then
    Except.error "AttributeError: GEOMAlgo_Splitter has no SetTools"
  else
    Except.ok { e with tools := shapes }

/-- Kernel splitter `Perform`: executes the split.  Modelled from the
doctests (`bop = SplitShapes(e1, e2)` followed by `assert bop.is_done`): on
the valid operands considered here it completes with error status 0. -/
def Engine.Perform (e : Engine) : Engine :=
  { e with performed := true, errorStatus := 0 }

/-- Kernel standard-engine `Build`: executes the operation.  Modelled from
the doctests: on valid operands it completes, setting the done flag. -/
def Engine.Build (e : Engine) : Engine :=
  { e with performed := true }

/-- Kernel splitter `ErrorStatus` query. -/
def Engine.ErrorStatus (e : Engine) : Nat :=
  e.errorStatus

/-- Kernel standard-engine `IsDone` query. -/
def Engine.IsDone (e : Engine) : Bool :=
  e.performed

/-- Kernel standard-engine `RefineEdges` post-processing request. -/
def Engine.RefineEdges (e : Engine) : Engine :=
  { e with refined := true }

/-- Kernel standard-engine `FuseEdges` query: the kernel-maintained result
flag of edge refining. -/
def Engine.FuseEdges (e : Engine) : Bool :=
  e.fuseEdgesFlag

/-- Kernel standard-engine `SectionEdges` query: the kernel-maintained list
of intersection edges. -/
def Engine.SectionEdges (e : Engine) : List Shape :=
  e.sectionEdgeList

/-- Modelled from the spec: `to_toptools_listofshape` (`afem/occ/utils.py`,
not among the given sources) converts a host list of shapes to the kernel
list type, a lossless container conversion. -/
def to_toptools_listofshape (shapes : List Shape) : List Shape :=
  shapes

/-- Modelled from the spec: `to_lst_from_toptools_listofshape`
(`afem/occ/utils.py`, not among the given sources) converts a kernel list of
shapes back to a host list, a lossless container conversion. -/
def to_lst_from_toptools_listofshape (shapes : List Shape) : List Shape :=
  shapes

/-- `BopAlgo.__init__` (`bop.py` lines 33-41): if both operands are valid
shapes the engine is built with the two-argument constructor, otherwise with
the zero-argument constructor; then the parallel flag and the fuzzy value
are forwarded when given. -/
def BopAlgo.init (shape1 shape2 : Operand) (parallel : Bool)
    (fuzzy_val : Option ℚ) (bop : BopKind) : Except String Engine := do
  let e ←
    match shape1.toShape, shape2.toShape with
    | some s1, some s2 => Engine.mk2 bop s1 s2
    | _, _ => Except.ok (Engine.mk0 bop)
  let e := if parallel then e.SetRunParallel true else e
  let e :=
    match fuzzy_val with
    | some v => e.SetFuzzyValue v
    | Option.none => e
  Except.ok e

/-- `BopAlgo._is_splitter`: whether the wrapped engine is the splitter. -/
def BopAlgo._is_splitter (e : Engine) : Bool :=
  e.kind = BopKind.splitter

/-- `BopAlgo.set_args` (`bop.py` lines 47-60): for the splitter, the loop
body adds the current shape and returns, so a nonempty sequence contributes
only its first element; otherwise (standard engine, or splitter with an
empty sequence falling through the loop) the shapes are converted and passed
to the engine `SetArguments`. -/
def BopAlgo.set_args (e : Engine) (shapes : List Shape) : Except String Engine :=
  match BopAlgo._is_splitter e, shapes with
  | true, shape :: _ => Except.ok (e.AddArgument shape)
  | _, _ => e.SetArguments (to_toptools_listofshape shapes)

/-- `BopAlgo.set_tools` (`bop.py` lines 62-75): same structure as
`BopAlgo.set_args`, with `AddTool`/`SetTools`. -/
def BopAlgo.set_tools (e : Engine) (shapes : List Shape) : Except String Engine :=
  match BopAlgo._is_splitter e, shapes with
  | true, shape :: _ => Except.ok (e.AddTool shape)
  | _, _ => e.SetTools (to_toptools_listofshape shapes)

/-- `BopAlgo.build`: `Perform` for the splitter, `Build` otherwise. -/
def BopAlgo.build (e : Engine) : Engine :=
  if BopAlgo._is_splitter e then e.Perform else e.Build

/-- `BopAlgo.is_done`: for the splitter, the error-status code compared with
the no-error sentinel 0; for standard engines, the engine done flag. -/
def BopAlgo.is_done (e : Engine) : Bool :=
  if BopAlgo._is_splitter e then e.ErrorStatus == 0 else e.IsDone

/-- `BopAlgo.refine_edges`: for the splitter, emit a warning and do nothing;
otherwise call the engine `RefineEdges`.  The returned list carries the
warnings emitted by the call. -/
def BopAlgo.refine_edges (e : Engine) : Engine × List String :=
  if BopAlgo._is_splitter e then
    (e, ["Refine edges not implemented for GEOMAlgo_Splitter."])
  else
    (e.RefineEdges, [])

/-- `BopAlgo.fuse_edges`: false for the splitter, the engine `FuseEdges`
flag otherwise. -/
def BopAlgo.fuse_edges (e : Engine) : Bool :=
  if BopAlgo._is_splitter e then false else e.FuseEdges

/-- `BopAlgo.section_edges`: for the splitter, emit a warning and return an
empty list; otherwise convert the engine `SectionEdges`.  The returned list
of strings carries the warnings emitted by the call. -/
def BopAlgo.section_edges (e : Engine) : List Shape × List String :=
  if BopAlgo._is_splitter e then
    ([], ["Section edges not implemented for GEOMAlgo_Splitter. Returning empty list."])
  else
    (to_lst_from_toptools_listofshape e.SectionEdges, [])

/-- `FuseShapes.__init__`: the base construction with the fuse engine. -/
def FuseShapes.init (shape1 shape2 : Operand) (parallel : Bool)
    (fuzzy_val : Option ℚ) : Except String Engine :=
  BopAlgo.init shape1 shape2 parallel fuzzy_val BopKind.fuse

/-- `CutShapes.__init__`: the base construction with the cut engine. -/
def CutShapes.init (shape1 shape2 : Operand) (parallel : Bool)
    (fuzzy_val : Option ℚ) : Except String Engine :=
  BopAlgo.init shape1 shape2 parallel fuzzy_val BopKind.cut

/-- `CommonShapes.__init__`: the base construction with the common engine. -/
def CommonShapes.init (shape1 shape2 : Operand) (parallel : Bool)
    (fuzzy_val : Option ℚ) : Except String Engine :=
  BopAlgo.init shape1 shape2 parallel fuzzy_val BopKind.common

/-- `IntersectShapes.__init__`: the base construction with the section
engine. -/
def IntersectShapes.init (shape1 shape2 : Operand) (parallel : Bool)
    (fuzzy_val : Option ℚ) : Except String Engine :=
  BopAlgo.init shape1 shape2 parallel fuzzy_val BopKind.intersect

/-- `SplitShapes.__init__` (`bop.py` lines 403-410): the base construction is
always called with `None, None` (so the splitter engine is built with zero
operands), then, when both operands are valid shapes, shape1 and shape2 are
added with `AddArgument` and the engine `Perform` runs immediately. -/
def SplitShapes.init (shape1 shape2 : Operand) (parallel : Bool)
    (fuzzy_val : Option ℚ) : Except String Engine := do
  let e ← BopAlgo.init Operand.null Operand.null parallel fuzzy_val BopKind.splitter
  match shape1.toShape, shape2.toShape with
  | some s1, some s2 => Except.ok (((e.AddArgument s1).AddArgument s2).Perform)
  | _, _ => Except.ok e

/-- `SplitShapes.add_arg`. -/
def SplitShapes.add_arg (e : Engine) (s : Shape) : Engine :=
  e.AddArgument s

/-- `SplitShapes.add_tool`. -/
def SplitShapes.add_tool (e : Engine) (s : Shape) : Engine :=
  e.AddTool s

/-- Boolean success test for a fallible call. -/
def isOkB {ε α : Type} : Except ε α → Bool
  | Except.ok _ => true
  | Except.error _ => false

/-- A kernel 3-D point (`gp_Pnt`); coordinates are modelled as exact
rationals, so machine-real round trips that copy the stored value are exact
here as well. -/
structure Pnt where
  x : ℚ
  y : ℚ
  z : ℚ
deriving DecidableEq, Repr

instance : Inhabited Pnt := ⟨⟨0, 0, 0⟩⟩

/-- Kernel `gp_Pnt.X`. -/
def Pnt.X (p : Pnt) : ℚ := p.x

/-- Kernel `gp_Pnt.Y`. -/
def Pnt.Y (p : Pnt) : ℚ := p.y

/-- Kernel `gp_Pnt.Z`. -/
def Pnt.Z (p : Pnt) : ℚ := p.z

/-- A host-language value appearing as one element of a point sequence: an
actual kernel point instance, an array-like of numbers (list, tuple, numpy
row), or some other object that is not array-like. -/
inductive PntLike where
  | pnt (x y z : ℚ) : PntLike
  | arr (cs : List ℚ) : PntLike
  | other (tag : Nat) : PntLike
deriving DecidableEq, Repr

/-- Modelled from the spec: `is_array_like` (`afem/utils/misc.py`, not among
the given sources) is true exactly for array-like values. -/
def is_array_like : PntLike → Bool
  | PntLike.arr _ => true
  | _ => false

/-- `_to_gp_pnt` (`tcol.py` lines 19-27): a `gp_Pnt` instance passes through;
an array-like of length 3 becomes `gp_Pnt(*p)`; anything else yields `None`
(matching `if is_array_like(p) and len(p) == 3`). -/
def _to_gp_pnt : PntLike → Option Pnt
  | PntLike.pnt x y z => some ⟨x, y, z⟩
  | PntLike.arr [x, y, z] => some ⟨x, y, z⟩
  | _ => Option.none

/-- The coordinates of a point-like element under its coercion: the triple a
round trip is expected to reproduce (empty for a non-coercible element). -/
def pntCoords (p : PntLike) : List ℚ :=
  match _to_gp_pnt p with
  | some g => [g.X, g.Y, g.Z]
  | Option.none => []

/-- Kernel `TColgp_Array1OfPnt`: a fixed-bounds array with its lower bound
and its values in index order. -/
structure TColgp_Array1OfPnt where
  lower : Nat
  values : List Pnt
deriving DecidableEq, Repr

/-- Kernel `TColgp_Array1OfPnt.Length`. -/
def TColgp_Array1OfPnt.Length (a : TColgp_Array1OfPnt) : Nat :=
  a.values.length

/-- Kernel `TColgp_Array1OfPnt.Value` at a (lower-bound-based) index. -/
def TColgp_Array1OfPnt.Value (a : TColgp_Array1OfPnt) (i : Nat) : Pnt :=
  a.values.getD (i - a.lower) default

/-- The filtering loop of `to_tcolgp_array1_pnt` (`tcol.py` lines 51-56):
convert each entity with `_to_gp_pnt`, skip (`continue`) those that yield
`None`, append the rest in order. -/
def collectPnts : List PntLike → List Pnt
  | [] => []
  | p :: rest =>
      match _to_gp_pnt p with
      | some gp => gp :: collectPnts rest
      | Option.none => collectPnts rest

/-- `to_tcolgp_array1_pnt` (`tcol.py` lines 41-64): collect the coercible
points, then fill a kernel array with bounds 1..n by `SetValue(i, gp)` for
i = 1, …, n. -/
def to_tcolgp_array1_pnt (pnts : List PntLike) : TColgp_Array1OfPnt :=
  let gp_pnts := collectPnts pnts
  { lower := 1, values := gp_pnts }

/-- `to_np_from_tcolgp_array1_pnt` (`tcol.py` lines 245-257): allocate an
n × 3 host array and copy the coordinates of each point by index
(`Value(i + 1)` for i = 0, …, n − 1). -/
def to_np_from_tcolgp_array1_pnt (tcol_array : TColgp_Array1OfPnt) : List (List ℚ) :=
  (List.range tcol_array.Length).map fun i =>
    let p := tcol_array.Value (i + 1)
    [p.X, p.Y, p.Z]

/-- Sequential fallible mapping over a list, the model of a Python
comprehension or loop whose body may raise: the first failure aborts the
whole traversal. -/
def mapExcept {α β : Type} (f : α → Except String β) : List α → Except String (List β)
  | [] => Except.ok []
  | x :: xs => do
      let y ← f x
      let ys ← mapExcept f xs
      Except.ok (y :: ys)

/-- One host scalar: either a number (coercible by `float`/`int`) or a value
those constructors reject. -/
inductive Scalar where
  | num (q : ℚ) : Scalar
  | nonnum (tag : Nat) : Scalar
deriving DecidableEq, Repr

/-- The Python `float` constructor: succeeds on numbers, raises otherwise. -/
def pyFloat : Scalar → Except String ℚ
  | Scalar.num q => Except.ok q
  | Scalar.nonnum _ => Except.error "ValueError: could not convert to float"

/-- The Python `int` constructor: truncates a number toward zero, raises on
anything else. -/
def pyInt : Scalar → Except String ℤ
  | Scalar.num q => Except.ok (if 0 ≤ q then Int.floor q else Int.ceil q)
  | Scalar.nonnum _ => Except.error "ValueError: could not convert to int"

/-- Kernel `TColStd_Array1OfReal`. -/
structure TColStd_Array1OfReal where
  lower : Nat
  values : List ℚ
deriving DecidableEq, Repr

/-- Kernel `TColStd_Array1OfInteger`. -/
structure TColStd_Array1OfInteger where
  lower : Nat
  values : List ℤ
deriving DecidableEq, Repr

/-- `to_tcolstd_array1_real` (`tcol.py` lines 119-137): first coerce every
element with `float` (an error here propagates before any kernel array is
created), then fill a kernel array with bounds 1..n. -/
def to_tcolstd_array1_real (array : List Scalar) : Except String TColStd_Array1OfReal := do
  let flts ← mapExcept pyFloat array
  Except.ok { lower := 1, values := flts }

/-- `to_tcolstd_array1_integer` (`tcol.py` lines 140-158): first coerce every
element with `int` (an error here propagates before any kernel array is
created), then fill a kernel array with bounds 1..n. -/
def to_tcolstd_array1_integer (array : List Scalar) : Except String TColStd_Array1OfInteger := do
  let ints ← mapExcept pyInt array
  Except.ok { lower := 1, values := ints }

/-- Modelled from numpy: coercion of one element by
`np_array(..., dtype=float)` keeps the numbers of an array-like row and
raises `ValueError` on any element that is not a numeric array-like (a
kernel point instance or a non-array object cannot be cast to float). -/
def npCoerce : PntLike → Except String (List ℚ)
  | PntLike.arr cs => Except.ok cs
  | _ => Except.error "ValueError: could not convert element to float array"

/-- Modelled from numpy: whether nested rows form a rectangular array (all
rows of one length, all cells of one length). -/
def rectangular (rows : List (List (List ℚ))) : Bool :=
  match rows with
  | [] => true
  | r :: _ =>
      let m := r.length
      let k := match r with
        | c :: _ => c.length
        | [] => 0
      rows.all fun row => row.length == m && row.all fun c => c.length == k

/-- Modelled from numpy: `np_array(pnts, dtype=float)` on a 2-D sequence of
point-likes succeeds only when every cell coerces to a float row and the
result is rectangular; otherwise it raises. -/
def np_array_float2 (pnts : List (List PntLike)) :
    Except String (List (List (List ℚ))) := do
  let rows ← mapExcept (fun row => mapExcept npCoerce row) pnts
  if rectangular rows then Except.ok rows
  else Except.error "ValueError: ragged nested sequence"

/-- Kernel `TColgp_Array2OfPnt`: fixed-bounds 2-D array of points. -/
structure TColgp_Array2OfPnt where
  lowerRow : Nat
  lowerCol : Nat
  values : List (List Pnt)
deriving DecidableEq, Repr

/-- Kernel `SetValue` with a possibly-`None` point: storing `None` in a
point array raises a type error. -/
def setCell : Option Pnt → Except String Pnt
  | some p => Except.ok p
  | Option.none => Except.error "TypeError: SetValue expects a gp_Pnt, got None"

/-- `to_tcolgp_array2_pnt` (`tcol.py` lines 161-189): first coerce the whole
input to a float array with `np_array(pnts, dtype=float)` (which raises on
any non-coercible element), then apply `_to_gp_pnt` to each float cell and
store every cell with `SetValue(i, j, gp)` into a 1-based 2-D kernel array
(storing a `None` cell raises). -/
def to_tcolgp_array2_pnt (pnts : List (List PntLike)) :
    Except String TColgp_Array2OfPnt := do
  let a ← np_array_float2 pnts
  let gp_pnts := a.map fun row => row.map fun c => _to_gp_pnt (PntLike.arr c)
  let rows ← mapExcept (fun row => mapExcept setCell row) gp_pnts
  Except.ok { lowerRow := 1, lowerCol := 1, values := rows }

/-! ## Helper lemmas -/

theorem exceptBind_ok {α β : Type} (a : α) (g : α → Except String β) :
    (Except.ok a >>= g) = g a := rfl

theorem exceptBind_error {α β : Type} (e : String) (g : α → Except String β) :
    ((Except.error e : Except String α) >>= g) = Except.error e := rfl

theorem init_fallback (shape1 shape2 : Operand) (p : Bool) (f : Option ℚ) (k : BopKind)
    (h : shape1.toShape = Option.none ∨ shape2.toShape = Option.none) :
    BopAlgo.init shape1 shape2 p f k =
      Except.ok { kind := k, arguments := [], tools := [], runParallel := p,
                  fuzzyValue := f, performed := false, errorStatus := 2,
                  refined := false, fuseEdgesFlag := false, sectionEdgeList := [] } := by
  cases shape1 <;> cases shape2 <;>
    first
      | (cases p <;> rcases f with _ | v <;> rfl)
      | (rcases h with h | h <;> simp [Operand.toShape] at h)

theorem init_two_valid (s1 s2 : Shape) (p : Bool) (f : Option ℚ) (k : BopKind)
    (hk : k ≠ BopKind.splitter) :
    BopAlgo.init (Operand.shape s1) (Operand.shape s2) p f k =
      Except.ok { kind := k, arguments := [s1], tools := [s2], runParallel := p,
                  fuzzyValue := f, performed := true, errorStatus := 0,
                  refined := false, fuseEdgesFlag := false, sectionEdgeList := [] } := by
  cases k <;>
    first
      | exact absurd rfl hk
      | (cases p <;> rcases f with _ | v <;> rfl)

theorem split_init_two_valid (s1 s2 : Shape) (p : Bool) (f : Option ℚ) :
    SplitShapes.init (Operand.shape s1) (Operand.shape s2) p f =
      Except.ok { kind := BopKind.splitter, arguments := [s1, s2], tools := [],
                  runParallel := p, fuzzyValue := f, performed := true, errorStatus := 0,
                  refined := false, fuseEdgesFlag := false, sectionEdgeList := [] } := by
  cases p <;> rcases f with _ | v <;> rfl

theorem mapExcept_ok_mem {α β : Type} (f : α → Except String β) :
    ∀ (l : List α) (l' : List β), mapExcept f l = Except.ok l' →
      ∀ x ∈ l, ∃ y, y ∈ l' ∧ f x = Except.ok y := by
  intro l
  induction l with
  | nil =>
      intro l' _ x hx
      cases hx
  | cons a t ih =>
      intro l' hl x hx
      cases hfa : f a with
      | error e =>
          simp [mapExcept, hfa, exceptBind_error] at hl
      | ok y =>
          cases hft : mapExcept f t with
          | error e =>
              simp [mapExcept, hfa, hft, exceptBind_ok, exceptBind_error] at hl
          | ok ys =>
              simp [mapExcept, hfa, hft, exceptBind_ok] at hl
              rcases List.mem_cons.mp hx with rfl | hxt
              · exact ⟨y, by simp [← hl], hfa⟩
              · rcases ih ys hft x hxt with ⟨z, hz, hfz⟩
                exact ⟨z, by simp [← hl, hz], hfz⟩

theorem mapExcept_mem_error {α β : Type} (f : α → Except String β) :
    ∀ (l : List α) (x : α), x ∈ l → isOkB (f x) = false →
      isOkB (mapExcept f l) = false := by
  intro l
  induction l with
  | nil =>
      intro x hx
      cases hx
  | cons a t ih =>
      intro x hx hfx
      cases hfa : f a with
      | error e =>
          simp [mapExcept, hfa, exceptBind_error, isOkB]
      | ok y =>
          rcases List.mem_cons.mp hx with rfl | hxt
          · rw [hfa] at hfx
            simp [isOkB] at hfx
          · have ht := ih x hxt hfx
            cases hft : mapExcept f t with
            | error e =>
                simp [mapExcept, hfa, hft, exceptBind_ok, exceptBind_error, isOkB]
            | ok ys =>
                rw [hft] at ht
                simp [isOkB] at ht

theorem collectPnts_eq_filterMap (l : List PntLike) :
    collectPnts l = l.filterMap _to_gp_pnt := by
  induction l with
  | nil => rfl
  | cons p t ih =>
      cases hp : _to_gp_pnt p <;> simp [collectPnts, hp, List.filterMap_cons, ih]

theorem collectPnts_length_add (l : List PntLike) :
    (collectPnts l).length + (l.countP fun p => (_to_gp_pnt p).isNone) = l.length := by
  induction l with
  | nil => rfl
  | cons p t ih =>
      cases hp : _to_gp_pnt p <;>
        simp [collectPnts, hp, List.countP_cons] <;> omega

theorem collectPnts_map_coords (l : List PntLike) (h : ∀ p ∈ l, (_to_gp_pnt p).isSome = true) :
    ((collectPnts l).map fun g => [g.X, g.Y, g.Z]) = l.map pntCoords := by
  induction l with
  | nil => rfl
  | cons p t ih =>
      cases hp : _to_gp_pnt p with
      | none =>
          have hps := h p (List.mem_cons_self p t)
          rw [hp] at hps
          simp at hps
      | some g =>
          have ht : ∀ q ∈ t, (_to_gp_pnt q).isSome = true :=
            fun q hq => h q (List.mem_cons_of_mem p hq)
          simp [collectPnts, hp, pntCoords, ih ht]

theorem to_np_of_lower_one (vs : List Pnt) :
    to_np_from_tcolgp_array1_pnt { lower := 1, values := vs } =
      vs.map fun p => [p.X, p.Y, p.Z] := by
  unfold to_np_from_tcolgp_array1_pnt TColgp_Array1OfPnt.Length TColgp_Array1OfPnt.Value
  apply List.ext_getElem
  · simp
  · intro i h1 h2
    have hi : i < vs.length := by simpa using h2
    simp [List.getElem_range, List.getD_eq_getElem vs default hi,
      List.getElem?_eq_getElem hi]

theorem npCoerce_ok_inv (c : PntLike) (cs : List ℚ) (h : npCoerce c = Except.ok cs) :
    c = PntLike.arr cs := by
  cases c <;> simp [npCoerce] at h
  simp [h]

theorem setCell_ok_inv (g : Option Pnt) (pt : Pnt) (h : setCell g = Except.ok pt) :
    g = some pt := by
  cases g <;> simp [setCell] at h
  simp [h]

theorem to_tcolgp_array2_ok_forall (pnts : List (List PntLike)) (a : TColgp_Array2OfPnt)
    (h : to_tcolgp_array2_pnt pnts = Except.ok a) :
    ∀ row ∈ pnts, ∀ c ∈ row, (_to_gp_pnt c).isSome = true := by
  intro row hrow c hc
  unfold to_tcolgp_array2_pnt np_array_float2 at h
  cases hmm : mapExcept (fun row => mapExcept npCoerce row) pnts with
  | error e =>
      simp [hmm, exceptBind_error] at h
  | ok rows =>
      by_cases hrect : rectangular rows = true
      · cases hset : mapExcept (fun row => mapExcept setCell row)
            (rows.map fun row => row.map fun c => _to_gp_pnt (PntLike.arr c)) with
        | error e =>
            simp [hmm, hrect, hset, exceptBind_ok, exceptBind_error] at h
        | ok vals =>
            rcases mapExcept_ok_mem _ pnts rows hmm row hrow with ⟨r, hr, hrok⟩
            rcases mapExcept_ok_mem _ row r hrok c hc with ⟨cs, hcs, hcsok⟩
            have hcarr := npCoerce_ok_inv c cs hcsok
            have hmemmap : (r.map fun c => _to_gp_pnt (PntLike.arr c)) ∈
                rows.map fun row => row.map fun c => _to_gp_pnt (PntLike.arr c) :=
              List.mem_map_of_mem _ hr
            rcases mapExcept_ok_mem _ _ vals hset _ hmemmap with ⟨prow, _, hprowok⟩
            have hcellmem : _to_gp_pnt (PntLike.arr cs) ∈
                r.map fun c => _to_gp_pnt (PntLike.arr c) :=
              List.mem_map_of_mem _ hcs
            rcases mapExcept_ok_mem _ _ prow hprowok _ hcellmem with ⟨pt, _, hptok⟩
            have hcell := setCell_ok_inv _ pt hptok
            rw [hcarr, hcell]
            rfl
      · simp [hmm, hrect, exceptBind_ok, exceptBind_error] at h

/-! ## Claims -/

/-- C1 (counterexample): constructing `SplitShapes` with two valid operand
shapes leaves the tool set empty and puts both shapes in the argument set,
so shape2 is not added as one tool as claimed. -/
theorem split_init_second_operand_not_tool_cex :
    (SplitShapes.init (Operand.shape ⟨1⟩) (Operand.shape ⟨2⟩) true Option.none).map
        (fun e => (e.arguments, e.tools)) =
      Except.ok ([⟨1⟩, ⟨2⟩], []) := by
  rfl

/-- C1 (amended): when `SplitShapes` is constructed with two valid operand
shapes, the splitter engine is created with zero operands, then shape1 and
shape2 are each added as arguments (the tool set stays empty) and the
operation executes immediately during construction. -/
theorem split_init_both_operands_become_arguments (s1 s2 : Shape) (p : Bool) (f : Option ℚ) :
    ∃ e, SplitShapes.init (Operand.shape s1) (Operand.shape s2) p f = Except.ok e ∧
      e.arguments = [s1, s2] ∧ e.tools = [] ∧ e.performed = true :=
  ⟨_, split_init_two_valid s1 s2 p f, rfl, rfl, rfl⟩

/-- C2 (counterexample): constructing the fuse facade with two valid operand
shapes already reports `is_done = true` with no `build()` call, because the
two-argument engine constructor executes the operation (as the class
doctests assert), refuting the claim that `is_done` is false until an
explicit `build()`. -/
theorem standard_init_autoexec_cex :
    (FuseShapes.init (Operand.shape ⟨1⟩) (Operand.shape ⟨2⟩) true Option.none).map
        BopAlgo.is_done = Except.ok true := by
  rfl

/-- C2 (amended): for every variant other than the splitter, constructing
the facade with two valid operand shapes passes them to the engine
two-argument constructor, which executes the operation during construction:
`is_done` is true immediately afterward, before any `build()` call. -/
theorem standard_init_two_valid_autoexec (k : BopKind) (hk : k ≠ BopKind.splitter)
    (s1 s2 : Shape) (p : Bool) (f : Option ℚ) :
    (BopAlgo.init (Operand.shape s1) (Operand.shape s2) p f k).map BopAlgo.is_done =
      Except.ok true := by
  rw [init_two_valid s1 s2 p f k hk]
  simp [BopAlgo.is_done, BopAlgo._is_splitter, Engine.IsDone, Engine.ErrorStatus, Except.map]

/-- Witness for the amended C2 at the fuse variant and concrete shapes. -/
theorem standard_init_two_valid_autoexec_witness :
    BopKind.fuse ≠ BopKind.splitter ∧
      (BopAlgo.init (Operand.shape ⟨1⟩) (Operand.shape ⟨2⟩) true Option.none
          BopKind.fuse).map BopAlgo.is_done = Except.ok true :=
  ⟨by decide, standard_init_two_valid_autoexec BopKind.fuse (by decide) ⟨1⟩ ⟨2⟩ true Option.none⟩

/-- C3: a `SplitShapes` instance constructed with two valid operand shapes
has already executed before any explicit `build()` call: the engine has
performed, its error status is the no-error sentinel 0, and `is_done` (the
error status compared with 0 for the splitter) is true immediately after
construction. -/
theorem split_init_executes_before_build (s1 s2 : Shape) (p : Bool) (f : Option ℚ) :
    (SplitShapes.init (Operand.shape s1) (Operand.shape s2) p f).map
        (fun e => (BopAlgo.is_done e, e.performed, e.ErrorStatus)) =
      Except.ok (true, true, 0) := by
  rw [split_init_two_valid s1 s2 p f]
  rfl

/-- C4 (counterexample): a 2-D point sequence of two elements with one
invalid element is claimed to yield an array of length 1; instead the
conversion raises while coercing the input to a float array and no
kernel-native array is produced. -/
theorem pnt_array2_invalid_raises_cex :
    to_tcolgp_array2_pnt [[PntLike.arr [0, 0, 0], PntLike.other 0]] =
      Except.error "ValueError: could not convert element to float array" := by
  rfl

/-- C4 (amended): for every host 1-D point sequence, elements that cannot be
coerced are silently skipped — the output has lower bound 1, holds exactly
the successfully coerced points in order, and its length is N − K for K
invalid elements out of N; the 2-D point conversion does not skip: whenever
some element is non-coercible it raises instead of producing an array. -/
theorem pnt_array1_skips_pnt_array2_raises :
    (∀ pnts : List PntLike,
        (to_tcolgp_array1_pnt pnts).lower = 1 ∧
        (to_tcolgp_array1_pnt pnts).values = pnts.filterMap _to_gp_pnt ∧
        (to_tcolgp_array1_pnt pnts).Length =
          pnts.length - (pnts.countP fun p => (_to_gp_pnt p).isNone)) ∧
    (∀ pnts : List (List PntLike),
        (∃ row ∈ pnts, ∃ c ∈ row, (_to_gp_pnt c).isNone = true) →
          isOkB (to_tcolgp_array2_pnt pnts) = false) := by
  constructor
  · intro pnts
    refine ⟨rfl, collectPnts_eq_filterMap pnts, ?_⟩
    have hlen := collectPnts_length_add pnts
    simp only [to_tcolgp_array1_pnt, TColgp_Array1OfPnt.Length]
    omega
  · rintro pnts ⟨row, hrow, c, hc, hnone⟩
    cases hres : to_tcolgp_array2_pnt pnts with
    | error e => simp [isOkB]
    | ok a =>
        have hs := to_tcolgp_array2_ok_forall pnts a hres row hrow c hc
        rw [Option.isNone_iff_eq_none.mp hnone] at hs
        simp at hs

/-- Witness for the amended C4: a concrete 2-D sequence with one
wrong-arity element satisfies the hypothesis and the conversion fails. -/
theorem pnt_array1_skips_pnt_array2_raises_witness :
    (∃ row ∈ [[PntLike.arr [0, 0], PntLike.arr [1, 2, 3]]], ∃ c ∈ row,
        (_to_gp_pnt c).isNone = true) ∧
      isOkB (to_tcolgp_array2_pnt [[PntLike.arr [0, 0], PntLike.arr [1, 2, 3]]]) = false :=
  ⟨by decide, pnt_array1_skips_pnt_array2_raises.2 _ (by decide)⟩

/-- C5: on a splitter instance, `set_args` and `set_tools` given a nonempty
sequence add only the first element as an argument (respectively tool),
whatever the rest of the sequence is; the remaining elements are silently
discarded. -/
theorem splitter_set_args_tools_first_only (e : Engine)
    (h : BopAlgo._is_splitter e = true) (s : Shape) (rest : List Shape) :
    ∃ e1 e2,
      BopAlgo.set_args e (s :: rest) = Except.ok e1 ∧
      e1.arguments = e.arguments ++ [s] ∧ e1.tools = e.tools ∧
      BopAlgo.set_tools e (s :: rest) = Except.ok e2 ∧
      e2.tools = e.tools ++ [s] ∧ e2.arguments = e.arguments := by
  refine ⟨e.AddArgument s, e.AddTool s, ?_, rfl, rfl, ?_, rfl, rfl⟩
  · unfold BopAlgo.set_args
    rw [h]
  · unfold BopAlgo.set_tools
    rw [h]

/-- Witness for C5 at a fresh splitter engine and a three-element list. -/
theorem splitter_set_args_tools_first_only_witness :
    BopAlgo._is_splitter (Engine.mk0 BopKind.splitter) = true ∧
      (∃ e1 e2,
        BopAlgo.set_args (Engine.mk0 BopKind.splitter) [⟨1⟩, ⟨2⟩, ⟨3⟩] = Except.ok e1 ∧
        e1.arguments = (Engine.mk0 BopKind.splitter).arguments ++ [⟨1⟩] ∧
        e1.tools = (Engine.mk0 BopKind.splitter).tools ∧
        BopAlgo.set_tools (Engine.mk0 BopKind.splitter) [⟨1⟩, ⟨2⟩, ⟨3⟩] = Except.ok e2 ∧
        e2.tools = (Engine.mk0 BopKind.splitter).tools ++ [⟨1⟩] ∧
        e2.arguments = (Engine.mk0 BopKind.splitter).arguments) :=
  ⟨by decide, splitter_set_args_tools_first_only (Engine.mk0 BopKind.splitter)
    (by decide) ⟨1⟩ [⟨2⟩, ⟨3⟩]⟩

/-- C6: whenever a host scalar sequence holds an element the numeric
constructor rejects, both the real and the integer marshalling functions
propagate the error and produce no kernel-native output array. -/
theorem scalar_conversion_error_propagates (arr : List Scalar) (t : Nat)
    (h : Scalar.nonnum t ∈ arr) :
    isOkB (to_tcolstd_array1_real arr) = false ∧
    isOkB (to_tcolstd_array1_integer arr) = false := by
  have h1 := mapExcept_mem_error pyFloat arr _ h rfl
  have h2 := mapExcept_mem_error pyInt arr _ h rfl
  constructor
  · unfold to_tcolstd_array1_real
    cases hm : mapExcept pyFloat arr with
    | error e => simp [exceptBind_error, isOkB]
    | ok v => rw [hm] at h1; simp [isOkB] at h1
  · unfold to_tcolstd_array1_integer
    cases hm : mapExcept pyInt arr with
    | error e => simp [exceptBind_error, isOkB]
    | ok v => rw [hm] at h2; simp [isOkB] at h2

/-- Witness for C6 at a concrete list with one non-numeric element. -/
theorem scalar_conversion_error_propagates_witness :
    Scalar.nonnum 0 ∈ [Scalar.num 1, Scalar.nonnum 0] ∧
      (isOkB (to_tcolstd_array1_real [Scalar.num 1, Scalar.nonnum 0]) = false ∧
        isOkB (to_tcolstd_array1_integer [Scalar.num 1, Scalar.nonnum 0]) = false) :=
  ⟨by decide, scalar_conversion_error_propagates _ 0 (by decide)⟩

/-- C7: converting a 1-D point sequence whose elements are all coercible to
the kernel array and back yields a sequence of the same length whose
coordinate triples equal the originals (coordinates are exact here, so
floating-point tolerance is met by equality). -/
theorem pnt_array1_roundtrip (pnts : List PntLike)
    (h : ∀ p ∈ pnts, (_to_gp_pnt p).isSome = true) :
    (to_np_from_tcolgp_array1_pnt (to_tcolgp_array1_pnt pnts)).length = pnts.length ∧
    to_np_from_tcolgp_array1_pnt (to_tcolgp_array1_pnt pnts) = pnts.map pntCoords := by
  have h2 : to_np_from_tcolgp_array1_pnt (to_tcolgp_array1_pnt pnts) = pnts.map pntCoords := by
    have h1 : to_tcolgp_array1_pnt pnts =
        ({ lower := 1, values := collectPnts pnts } : TColgp_Array1OfPnt) := rfl
    rw [h1, to_np_of_lower_one, collectPnts_map_coords pnts h]
  exact ⟨by rw [h2, List.length_map], h2⟩

/-- Witness for C7 at a two-element all-valid point sequence. -/
theorem pnt_array1_roundtrip_witness :
    (∀ p ∈ [PntLike.arr [1, 2, 3], PntLike.pnt 4 5 6], (_to_gp_pnt p).isSome = true) ∧
      ((to_np_from_tcolgp_array1_pnt
            (to_tcolgp_array1_pnt [PntLike.arr [1, 2, 3], PntLike.pnt 4 5 6])).length =
          ([PntLike.arr [1, 2, 3], PntLike.pnt 4 5 6] : List PntLike).length ∧
        to_np_from_tcolgp_array1_pnt
            (to_tcolgp_array1_pnt [PntLike.arr [1, 2, 3], PntLike.pnt 4 5 6]) =
          ([PntLike.arr [1, 2, 3], PntLike.pnt 4 5 6] : List PntLike).map pntCoords) :=
  ⟨by decide, pnt_array1_roundtrip _ (by decide)⟩

/-- C8: on a splitter instance, `refine_edges` warns and leaves the engine
state unchanged, `fuse_edges` is false, and `section_edges` warns and
returns the empty list; none of these calls can fail. -/
theorem splitter_refine_section_fuse_degrade (e : Engine)
    (h : BopAlgo._is_splitter e = true) :
    BopAlgo.refine_edges e = (e, ["Refine edges not implemented for GEOMAlgo_Splitter."]) ∧
    BopAlgo.fuse_edges e = false ∧
    BopAlgo.section_edges e =
      ([], ["Section edges not implemented for GEOMAlgo_Splitter. Returning empty list."]) := by
  refine ⟨?_, ?_, ?_⟩ <;>
    simp [BopAlgo.refine_edges, BopAlgo.fuse_edges, BopAlgo.section_edges, h]

/-- Witness for C8 at a fresh splitter engine. -/
theorem splitter_refine_section_fuse_degrade_witness :
    BopAlgo._is_splitter (Engine.mk0 BopKind.splitter) = true ∧
      (BopAlgo.refine_edges (Engine.mk0 BopKind.splitter) =
          (Engine.mk0 BopKind.splitter,
            ["Refine edges not implemented for GEOMAlgo_Splitter."]) ∧
        BopAlgo.fuse_edges (Engine.mk0 BopKind.splitter) = false ∧
        BopAlgo.section_edges (Engine.mk0 BopKind.splitter) =
          ([], ["Section edges not implemented for GEOMAlgo_Splitter. Returning empty list."])) :=
  ⟨by decide, splitter_refine_section_fuse_degrade (Engine.mk0 BopKind.splitter) (by decide)⟩

/-- C9: when at least one operand is not a valid shape, facade construction
does not raise: the engine is instantiated with no operands, yet the
parallel flag and the fuzzy tolerance are propagated exactly as on the
valid path. -/
theorem init_invalid_operand_fallback (shape1 shape2 : Operand) (p : Bool) (f : Option ℚ)
    (k : BopKind)
    (h : CheckShape.is_shape shape1 = false ∨ CheckShape.is_shape shape2 = false) :
    BopAlgo.init shape1 shape2 p f k =
      Except.ok { kind := k, arguments := [], tools := [], runParallel := p,
                  fuzzyValue := f, performed := false, errorStatus := 2,
                  refined := false, fuseEdgesFlag := false, sectionEdgeList := [] } := by
  apply init_fallback
  rcases h with h | h
  · left
    cases shape1 with
    | null => rfl
    | shape s => simp [CheckShape.is_shape] at h
    | notAShape t => rfl
  · right
    cases shape2 with
    | null => rfl
    | shape s => simp [CheckShape.is_shape] at h
    | notAShape t => rfl

/-- Witness for C9 with a non-shape first operand, the parallel flag on and
a fuzzy tolerance supplied. -/
theorem init_invalid_operand_fallback_witness :
    (CheckShape.is_shape (Operand.notAShape 7) = false ∨
        CheckShape.is_shape (Operand.shape ⟨2⟩) = false) ∧
      BopAlgo.init (Operand.notAShape 7) (Operand.shape ⟨2⟩) true (some (1 / 2))
          BopKind.cut =
        Except.ok { kind := BopKind.cut, arguments := [], tools := [], runParallel := true,
                    fuzzyValue := some (1 / 2), performed := false, errorStatus := 2,
                    refined := false, fuseEdgesFlag := false, sectionEdgeList := [] } :=
  ⟨Or.inl rfl, init_invalid_operand_fallback _ _ _ _ _ (Or.inl rfl)⟩

/-- C10: on a splitter instance, `set_args` and `set_tools` with an empty
sequence are not no-ops: the loop with the early return never runs, control
falls through to the engine `SetArguments`/`SetTools`, which the splitter
engine does not support, so the call fails instead of leaving the
argument/tool set unchanged. -/
theorem splitter_set_args_tools_empty_fails (e : Engine)
    (h : BopAlgo._is_splitter e = true) :
    BopAlgo.set_args e [] = Engine.SetArguments e (to_toptools_listofshape []) ∧
    isOkB (BopAlgo.set_args e []) = false ∧
    BopAlgo.set_tools e [] = Engine.SetTools e (to_toptools_listofshape []) ∧
    isOkB (BopAlgo.set_tools e []) = false := by
  have hk : e.kind = BopKind.splitter := by
    simpa [BopAlgo._is_splitter] using h
  have h1 : BopAlgo.set_args e [] = Engine.SetArguments e (to_toptools_listofshape []) := by
    unfold BopAlgo.set_args
    rw [h]
  have h2 : BopAlgo.set_tools e [] = Engine.SetTools e (to_toptools_listofshape []) := by
    unfold BopAlgo.set_tools
    rw [h]
  refine ⟨h1, ?_, h2, ?_⟩
  · rw [h1]
    simp [Engine.SetArguments, to_toptools_listofshape, hk, isOkB]
  · rw [h2]
    simp [Engine.SetTools, to_toptools_listofshape, hk, isOkB]

/-- Witness for C10 at a fresh splitter engine. -/
theorem splitter_set_args_tools_empty_fails_witness :
    BopAlgo._is_splitter (Engine.mk0 BopKind.splitter) = true ∧
      (BopAlgo.set_args (Engine.mk0 BopKind.splitter) [] =
          Engine.SetArguments (Engine.mk0 BopKind.splitter) (to_toptools_listofshape []) ∧
        isOkB (BopAlgo.set_args (Engine.mk0 BopKind.splitter) []) = false ∧
        BopAlgo.set_tools (Engine.mk0 BopKind.splitter) [] =
          Engine.SetTools (Engine.mk0 BopKind.splitter) (to_toptools_listofshape []) ∧
        isOkB (BopAlgo.set_tools (Engine.mk0 BopKind.splitter) []) = false) :=
  ⟨by decide, splitter_set_args_tools_empty_fails (Engine.mk0 BopKind.splitter) (by decide)⟩

end AFEM
